import Mathlib

/-!
# Verification of the Webdock REST-API client (`src/main.rs`)

Shallow embedding of the client in `src/main.rs`.  Pure data and control
flow are translated directly; the HTTP transport (reqwest's blocking
`Client`) is modelled by an explicit network oracle
`net : Request → Except ReqwestErr Response` passed to the dispatching
functions, and the requests actually handed to the transport are collected
in a list, so that "no network call is made" and "exactly one request is
dispatched" are provable statements.  `println!` output is collected in a
list of output lines.  A Rust panic (`Option::expect`) is a distinct
`Outcome.panic` constructor.
-/

/-- Model of `serde_json::Value`.  Numbers are collapsed to `Int`; none of
the verified claims inspects numeric payloads.  Objects are association
lists keyed by field name (`serde_json::Map`), accessed only through
`as_object`/`contains_key` as in the source. -/
inductive Json where
  | null
  | bool (b : Bool)
  | num (n : Int)
  | str (s : String)
  | arr (elems : List Json)
  | obj (fields : List (String × Json))

/-- `serde_json::Value::as_object`: `some` of the field list exactly when
the value is an object. -/
def Json.as_object : Json → Option (List (String × Json))
  | .obj fields => some fields
  | _ => none

/-- `serde_json::Map::contains_key`. -/
def Json.hasKey (fields : List (String × Json)) (key : String) : Bool :=
  fields.any (fun kv => kv.1 = key)

/-- Model of `reqwest::Error`: a transport failure (connection/TLS/timeout,
produced by `send()`) or a body-decoding failure (produced by
`Response::json()`).  In Rust both inhabit the single type
`reqwest::Error`; the tag records which operation produced it. -/
inductive ReqwestErr where
  | transport (msg : String)
  | decode (msg : String)
deriving DecidableEq

/-- The error enum `WebdockError` of `src/main.rs` (lines 7–12).
`ReqwestError` wraps an underlying `reqwest::Error` (the `From` impl at
lines 14–18, invoked by every `?` on a reqwest result). -/
inductive WebdockError where
  | ReqwestError (e : ReqwestErr)
  | WebdockException (msg : String)
  | ValidationException (msg : String)
deriving DecidableEq

/-- The spec's "transport error" kind (§7.1): the variant of the error enum
that wraps the underlying network error.  Used to compare the kind under
which decode failures are surfaced. -/
def WebdockError.isTransportKind : WebdockError → Bool
  | .ReqwestError _ => true
  | _ => false

/-- HTTP methods of interest.  `PATCH` exists in the model so that the
claim "verb string PATCH maps to HTTP method PATCH" is statable; the
embedded client itself never constructs it (see `make_request`). -/
inductive Method where
  | GET
  | POST
  | PATCH
  | DELETE
deriving DecidableEq

/-- A request as handed to the transport: wire method, full URL, optional
JSON body (the argument of `.json(..)`).  Headers are fixed at client
construction and never consulted by the verified claims, so they are not
modelled. -/
structure Request where
  method : Method
  url : String
  body : Option Json

/-- Result of `Response::json::<serde_json::Value>()` on a response body:
either the decoded value or a `reqwest::Error`. -/
inductive BodyDecode where
  | ok (v : Json)
  | err (e : ReqwestErr)

/-- Model of `reqwest::blocking::Response` as observed by `send_response`:
the numeric status (`res.status().as_u16()`), the textual form
(`res.status().to_string()`, e.g. `"404 Not Found"`), and the outcome of
decoding the body as JSON. -/
structure Response where
  status : Nat
  statusText : String
  jsonBody : BodyDecode

/-- One `println!` line emitted by `send_response`. -/
inductive OutLine where
  | responseData (v : Json)
  | responseStatus (line : String)

/-- Overall outcome of a dispatching call: `Ok(())`, `Err(e)`, or a Rust
panic with its message. -/
inductive Outcome where
  | ok
  | err (e : WebdockError)
  | panic (msg : String)
deriving DecidableEq

/-- What a call to `make_request` (or a resource method) produces in the
model: the returned `Result`, the requests handed to the transport in
order, and the printed lines. -/
structure CallResult where
  outcome : Outcome
  requests : List Request
  output : List OutLine

/-- The struct `Webdock` (lines 20–25).  The `client : Client` field only
carries the default headers into the transport and is subsumed by the
network oracle, so it is not modelled. -/
structure Webdock where
  base_url : String
  endpoints : List (String × String)
  expects_raw : Bool

/-- The endpoint table built in `Webdock::new` (lines 45–58).  The Rust
code collects these pairs into a `HashMap`; the keys are pairwise
distinct, so association-list lookup agrees with the map. -/
def initEndpoints : List (String × String) :=
  [("ping", "ping"),
   ("servers", "servers"),
   ("locations", "locations"),
   ("profiles", "profiles"),
   ("images", "images"),
   ("pubkeys", "account/publicKeys"),
   ("scripts", "scripts"),
   ("hooks", "hooks"),
   ("events", "events")]

/-- `Webdock::new` (lines 28–66).  The api token only enters the default
`Authorization` header, which is not modelled. -/
def Webdock.new (api_token : String) : Webdock :=
  { base_url := "https://api.webdock.io/v1"
    endpoints := initEndpoints
    expects_raw := false }

/-- `Webdock::send_response` (lines 68–91).  The Rust `match` on
`res.status().as_u16()` with pattern `200 | 201 | 202 | 418` is rendered
as the equivalent disjunction test; the fallthrough arm builds
`format!("{} Error: {}", status_code, res.status().to_string())`. -/
def Webdock.send_response (c : Webdock) (res : Response) (json : Bool) :
    Except WebdockError Unit × List OutLine :=
  if res.status = 200 ∨ res.status = 201 ∨ res.status = 202 ∨ res.status = 418 then
    if c.expects_raw then
      (Except.ok (), [])
    else
      if json then
        match res.jsonBody with
        | .ok v => (Except.ok (), [.responseData v])
        | .err e => (Except.error (.ReqwestError e), [])
      else
        (Except.ok (), [.responseStatus res.statusText])
  else
    (Except.error
      (.WebdockException (toString res.status ++ " Error: " ++ res.statusText)), [])

/-- `Webdock::make_request` (lines 93–129).  The Rust `match request_type`
over string patterns is rendered as the equivalent chain of equality
tests.  In the `"POST" | "PATCH"` arm the source calls
`self.client.post(..)`, so the wire method is `POST` for both verbs, and
`data.expect("REASON")` panics (before any request is built) when `data`
is `None`. -/
def Webdock.make_request (c : Webdock) (endpoint : String) (request_type : String)
    (data : Option Json) (net : Request → Except ReqwestErr Response) : CallResult :=
  if request_type = "GET" then
    let req : Request := ⟨.GET, c.base_url ++ "/" ++ endpoint, none⟩
    match net req with
    | .error e => ⟨.err (.ReqwestError e), [req], []⟩
    | .ok res =>
      match c.send_response res true with
      | (.ok _, out) => ⟨.ok, [req], out⟩
      | (.error e, out) => ⟨.err e, [req], out⟩
  else if request_type = "POST" ∨ request_type = "PATCH" then
    match data with
    | none => ⟨.panic "REASON", [], []⟩
    | some d =>
      let req : Request := ⟨.POST, c.base_url ++ "/" ++ endpoint, some d⟩
      match net req with
      | .error e => ⟨.err (.ReqwestError e), [req], []⟩
      | .ok res =>
        match c.send_response res true with
        | (.ok _, out) => ⟨.ok, [req], out⟩
        | (.error e, out) => ⟨.err e, [req], out⟩
  else if request_type = "DELETE" then
    let req : Request := ⟨.DELETE, c.base_url ++ "/" ++ endpoint, none⟩
    match net req with
    | .error e => ⟨.err (.ReqwestError e), [req], []⟩
    | .ok res =>
      match c.send_response res false with
      | (.ok _, out) => ⟨.ok, [req], out⟩
      | (.error e, out) => ⟨.err e, [req], out⟩
  else
    ⟨.err (.ValidationException "Unsupported request type"), [], []⟩

/-- Indexing `self.endpoints[name]` on the `HashMap`: panics when the key
is absent (the `Index` impl of `HashMap`). -/
def Webdock.endpointOrPanic (c : Webdock) (name : String)
    (k : String → CallResult) : CallResult :=
  match c.endpoints.lookup name with
  | some seg => k seg
  | none => ⟨.panic "key not found", [], []⟩

/-- `Webdock::ping` (lines 131–133). -/
def Webdock.ping (c : Webdock) (net : Request → Except ReqwestErr Response) : CallResult :=
  c.endpointOrPanic "ping" (fun seg => c.make_request seg "GET" none net)

/-- `Webdock::servers` (lines 135–137). -/
def Webdock.servers (c : Webdock) (net : Request → Except ReqwestErr Response) : CallResult :=
  c.endpointOrPanic "servers" (fun seg => c.make_request seg "GET" none net)

/-- The required-field list of `provision_server` (line 141). -/
def requiredFields : List String :=
  ["name", "slug", "locationId", "profileSlug", "imageSlug"]

/-- `Webdock::provision_server` (lines 139–155).  The `for` loop returning
on the first missing field is `List.find?` over the field list. -/
def Webdock.provision_server (c : Webdock) (data : Json)
    (net : Request → Except ReqwestErr Response) : CallResult :=
  match data.as_object with
  | none => ⟨.err (.ValidationException "Invalid data format"), [], []⟩
  | some data_obj =>
    match requiredFields.find? (fun field => !(Json.hasKey data_obj field)) with
    | some field =>
      ⟨.err (.ValidationException ("Required field " ++ field ++ " is missing.")), [], []⟩
    | none =>
      c.endpointOrPanic "servers" (fun seg => c.make_request seg "POST" (some data) net)

/-- `send_response` with the `expects_raw` branch removed: the behaviour
every client constructed by `Webdock::new` exhibits (compared against
`Webdock.send_response` in the claim about unreachability of the raw
branch). -/
def sendResponseNoRaw (res : Response) (json : Bool) :
    Except WebdockError Unit × List OutLine :=
  if res.status = 200 ∨ res.status = 201 ∨ res.status = 202 ∨ res.status = 418 then
    if json then
      match res.jsonBody with
      | .ok v => (Except.ok (), [.responseData v])
      | .err e => (Except.error (.ReqwestError e), [])
    else
      (Except.ok (), [.responseStatus res.statusText])
  else
    (Except.error
      (.WebdockException (toString res.status ++ " Error: " ++ res.statusText)), [])

/-- `pat` occurs at the beginning of `hay` (character lists). -/
def startsWithChars : List Char → List Char → Bool
  | _, [] => true
  | [], _ :: _ => false
  | c :: cs, p :: ps => c == p && startsWithChars cs ps

/-- `pat` occurs contiguously somewhere in `hay` (character lists).
Executable containment check, used to state "the message contains …". -/
def containsChars : List Char → List Char → Bool
  | [], pat => pat.isEmpty
  | hay@(_ :: cs), pat => startsWithChars hay pat || containsChars cs pat

/-- String-level containment: `pat` occurs contiguously in `hay`. -/
def strContains (hay pat : String) : Bool :=
  containsChars hay.data pat.data

theorem startsWithChars_nil (hay : List Char) :
    startsWithChars hay [] = true := by
  cases hay <;> rfl

theorem startsWithChars_append (x y : List Char) :
    startsWithChars (x ++ y) x = true := by
  induction x with
  | nil => exact startsWithChars_nil y
  | cons c cs ih => simp [startsWithChars, ih]

theorem containsChars_of_starts (hay pat : List Char)
    (h : startsWithChars hay pat = true) : containsChars hay pat = true := by
  cases hay with
  | nil =>
    cases pat with
    | nil => rfl
    | cons p ps => simp [startsWithChars] at h
  | cons c cs => simp [containsChars, h]

theorem containsChars_append_left (x y : List Char) :
    containsChars (x ++ y) x = true :=
  containsChars_of_starts _ _ (startsWithChars_append x y)

theorem containsChars_append_right (a x : List Char) :
    containsChars (a ++ x) x = true := by
  induction a with
  | nil =>
    have h := startsWithChars_append x []
    rw [List.append_nil] at h
    exact containsChars_of_starts _ _ h
  | cons c cs ih => simp [containsChars, ih]

theorem strContains_left (a b c : String) :
    strContains (a ++ b ++ c) a = true := by
  unfold strContains
  rw [String.data_append, String.data_append, List.append_assoc]
  exact containsChars_append_left _ _

theorem strContains_right (a b c : String) :
    strContains (a ++ b ++ c) c = true := by
  unfold strContains
  rw [String.data_append]
  exact containsChars_append_right _ _

/-- Claim C1: `send_response` treats exactly the status codes 200, 201, 202
and 418 as success (on them it never produces a `WebdockException`; it
returns `Ok` unless body decoding fails, and a decode failure is the
wrapped reqwest error, not a service error), and for any other status code
it returns a `WebdockException` whose message is
`"{code} Error: {status text}"`, which contains the numeric code and the
status text as substrings. -/
theorem send_response_status_classification (c : Webdock) (res : Response) (json : Bool) :
    ((res.status = 200 ∨ res.status = 201 ∨ res.status = 202 ∨ res.status = 418) →
      ((c.send_response res json).1 = Except.ok () ∨
        ∃ e, res.jsonBody = BodyDecode.err e ∧
          (c.send_response res json).1 = Except.error (.ReqwestError e))) ∧
    (¬(res.status = 200 ∨ res.status = 201 ∨ res.status = 202 ∨ res.status = 418) →
      (c.send_response res json).1 =
        Except.error (.WebdockException (toString res.status ++ " Error: " ++ res.statusText)) ∧
      strContains (toString res.status ++ " Error: " ++ res.statusText) (toString res.status) = true ∧
      strContains (toString res.status ++ " Error: " ++ res.statusText) res.statusText = true) := by
  constructor
  · intro h
    unfold Webdock.send_response
    rw [if_pos h]
    cases hr : c.expects_raw with
    | true => left; rfl
    | false =>
      cases json with
      | true =>
        cases hb : res.jsonBody with
        | ok v => left; rfl
        | err e => right; exact ⟨e, rfl, rfl⟩
      | false => left; rfl
  · intro h
    refine ⟨?_, ?_, ?_⟩
    · unfold Webdock.send_response
      rw [if_neg h]
    · exact strContains_left _ _ _
    · exact strContains_right _ _ _

/-- Witness for C1 at status 503: the result is a service error whose
message is `"503 Error: 503 Service Unavailable"`. -/
theorem send_response_status_classification_witness :
    ¬((503 : Nat) = 200 ∨ (503 : Nat) = 201 ∨ (503 : Nat) = 202 ∨ (503 : Nat) = 418) ∧
    ((Webdock.new "t").send_response
        ⟨503, "503 Service Unavailable", .err (.decode "bad json")⟩ true).1 =
      Except.error (.WebdockException "503 Error: 503 Service Unavailable") :=
  ⟨by decide,
   ((send_response_status_classification (Webdock.new "t")
      ⟨503, "503 Service Unavailable", .err (.decode "bad json")⟩ true).2 (by decide)).1⟩

/-- Claim C10: every client built by `Webdock::new` has `expects_raw =
false`, and (since no method ever mutates a field — every method takes
`&self` and the embedding carries no state) `send_response` on such a
client coincides with the function obtained by deleting the raw-response
branch: that branch is unreachable. -/
theorem new_expects_raw_false_raw_branch_unreachable (api_token : String) :
    (Webdock.new api_token).expects_raw = false ∧
    ∀ (res : Response) (json : Bool),
      (Webdock.new api_token).send_response res json = sendResponseNoRaw res json := by
  refine ⟨rfl, fun res json => ?_⟩
  unfold Webdock.send_response sendResponseNoRaw
  simp [Webdock.new]

/-- Claim C2 counterexample: on a 200 response whose body fails JSON
decoding, `send_response` surfaces the failure through the `ReqwestError`
variant — the same kind that wraps transport errors (compare the GET call
whose transport fails), so the decode error kind is NOT distinct from the
transport kind; moreover on a successful decode, the decoded value is only
printed while the caller receives `Ok(())`, not the decoded value. -/
theorem decode_failure_same_kind_as_transport_cex :
    ((Webdock.new "t").send_response
        ⟨200, "200 OK", .err (.decode "invalid json")⟩ true).1
      = Except.error (.ReqwestError (.decode "invalid json")) ∧
    WebdockError.isTransportKind (.ReqwestError (.decode "invalid json")) = true ∧
    ((Webdock.new "t").make_request "ping" "GET" none
        (fun _ => Except.error (.transport "connection refused"))).outcome
      = .err (.ReqwestError (.transport "connection refused")) ∧
    WebdockError.isTransportKind (.ReqwestError (.transport "connection refused")) = true ∧
    (Webdock.new "t").send_response ⟨200, "200 OK", .ok (.obj [("pong", .bool true)])⟩ true
      = (Except.ok (), [.responseData (.obj [("pong", .bool true)])]) :=
  ⟨rfl, rfl, rfl, rfl, rfl⟩

/-- Claim C2 (amended): on a success status with a JSON body expected, the
client decodes the body, prints the decoded value and returns `Ok(())`
(unit, not the decoded value); a decoding failure is surfaced as an error
— never swallowed — but under the `ReqwestError` variant, the same kind
that wraps transport errors, not a distinct kind. -/
theorem send_response_json_decoding (c : Webdock) (res : Response)
    (hraw : c.expects_raw = false)
    (hs : res.status = 200 ∨ res.status = 201 ∨ res.status = 202 ∨ res.status = 418) :
    (∀ v, res.jsonBody = BodyDecode.ok v →
      c.send_response res true = (Except.ok (), [.responseData v])) ∧
    (∀ e, res.jsonBody = BodyDecode.err e →
      c.send_response res true = (Except.error (.ReqwestError e), []) ∧
      WebdockError.isTransportKind (.ReqwestError e) = true) := by
  constructor
  · intro v hv
    unfold Webdock.send_response
    rw [if_pos hs, hraw]
    simp [hv]
  · intro e he
    unfold Webdock.send_response
    rw [if_pos hs, hraw]
    simp [he, WebdockError.isTransportKind]

/-- Witness for the amended C2 at a concrete 200 response. -/
theorem send_response_json_decoding_witness :
    (Webdock.new "t").send_response
        ⟨200, "200 OK", .ok (.obj [("pong", .bool true)])⟩ true
      = (Except.ok (), [.responseData (.obj [("pong", .bool true)])]) :=
  (send_response_json_decoding (Webdock.new "t")
      ⟨200, "200 OK", .ok (.obj [("pong", .bool true)])⟩ rfl (Or.inl rfl)).1
    (.obj [("pong", .bool true)]) rfl

/-- Claim C3 (code bug): the `"POST" | "PATCH"` arm of `make_request`
calls `self.client.post(..)`, so a call with verb `"PATCH"` puts a `POST`
— not a `PATCH` — on the wire. -/
theorem make_request_patch_sends_post :
    ((Webdock.new "t").make_request "servers" "PATCH" (some (.obj []))
        (fun _ => Except.ok ⟨200, "200 OK", .ok (.obj [])⟩)).requests
      = [⟨Method.POST, "https://api.webdock.io/v1/servers", some (.obj [])⟩] ∧
    Method.POST ≠ Method.PATCH :=
  ⟨rfl, by decide⟩

/-- Claim C4 counterexample: for verb `"PUT"` the result is a validation
error with the fixed message `"Unsupported request type"` and no request
is dispatched — but that message does not contain the verb `"PUT"`, so the
error does not name the unsupported verb. -/
theorem unsupported_verb_message_cex :
    (Webdock.new "t").make_request "ping" "PUT" none
        (fun _ => Except.error (.transport "unreachable"))
      = ⟨.err (.ValidationException "Unsupported request type"), [], []⟩ ∧
    strContains "Unsupported request type" "PUT" = false :=
  ⟨rfl, rfl⟩

/-- Claim C4 (amended): for every verb string other than GET, POST, PATCH
and DELETE, `make_request` returns a validation error whose message is the
fixed string `"Unsupported request type"` (it does not name the verb), and
no network request is dispatched. -/
theorem make_request_unsupported_verb (c : Webdock) (endpoint : String)
    (request_type : String) (data : Option Json)
    (net : Request → Except ReqwestErr Response)
    (h1 : request_type ≠ "GET") (h2 : request_type ≠ "POST")
    (h3 : request_type ≠ "PATCH") (h4 : request_type ≠ "DELETE") :
    c.make_request endpoint request_type data net
      = ⟨.err (.ValidationException "Unsupported request type"), [], []⟩ := by
  unfold Webdock.make_request
  rw [if_neg h1, if_neg (not_or.mpr ⟨h2, h3⟩), if_neg h4]

/-- Witness for the amended C4 at verb `"PUT"`. -/
theorem make_request_unsupported_verb_witness :
    (Webdock.new "t").make_request "ping" "PUT" none
        (fun _ => Except.error (.transport "unreachable"))
      = ⟨.err (.ValidationException "Unsupported request type"), [], []⟩ :=
  make_request_unsupported_verb _ _ _ _ _
    (by decide) (by decide) (by decide) (by decide)

/-- Claim C9: a `make_request` call with verb POST or PATCH and no body
panics via `Option::expect` with message `"REASON"` — it does not return a
validation error, and no request is dispatched. -/
theorem make_request_none_body_panics (c : Webdock) (endpoint : String)
    (request_type : String) (net : Request → Except ReqwestErr Response)
    (h : request_type = "POST" ∨ request_type = "PATCH") :
    c.make_request endpoint request_type none net
      = ⟨Outcome.panic "REASON", [], []⟩ := by
  unfold Webdock.make_request
  rcases h with h | h <;> subst h
  · rw [if_neg (by decide), if_pos (Or.inl rfl)]
  · rw [if_neg (by decide), if_pos (Or.inr rfl)]

/-- Witness for C9: a concrete POST with `data = None` panics. -/
theorem make_request_none_body_panics_witness :
    (Webdock.new "t").make_request "servers" "POST" none
        (fun _ => Except.error (.transport "unreachable"))
      = ⟨Outcome.panic "REASON", [], []⟩ :=
  make_request_none_body_panics _ _ _ _ (Or.inl rfl)

/-- Claim C5: on any JSON value that is not an object, or an object with
one of the required keys {name, slug, locationId, profileSlug, imageSlug}
absent, `provision_server` returns a validation error and dispatches no
request. -/
theorem provision_server_validation (c : Webdock) (data : Json)
    (net : Request → Except ReqwestErr Response)
    (h : data.as_object = none ∨
      ∃ data_obj, data.as_object = some data_obj ∧
        ∃ f ∈ requiredFields, Json.hasKey data_obj f = false) :
    ∃ msg, c.provision_server data net
      = ⟨.err (.ValidationException msg), [], []⟩ := by
  rcases h with h | ⟨data_obj, hobj, f, hf, hkey⟩
  · refine ⟨"Invalid data format", ?_⟩
    simp only [Webdock.provision_server, h]
  · have hsome : (requiredFields.find? (fun field => !(Json.hasKey data_obj field))).isSome := by
      rw [List.find?_isSome]
      exact ⟨f, hf, by simp [hkey]⟩
    obtain ⟨fld, hfind⟩ := Option.isSome_iff_exists.mp hsome
    refine ⟨"Required field " ++ fld ++ " is missing.", ?_⟩
    simp only [Webdock.provision_server, hobj, hfind]

/-- Witness for C5: an object carrying only `name` is rejected with a
validation error and no request is dispatched. -/
theorem provision_server_validation_witness :
    ∃ msg, (Webdock.new "t").provision_server (.obj [("name", .str "x")])
        (fun _ => Except.error (.transport "unreachable"))
      = ⟨.err (.ValidationException msg), [], []⟩ :=
  provision_server_validation _ _ _
    (Or.inr ⟨[("name", Json.str "x")], rfl, "slug", by decide, rfl⟩)

/-- Requests dispatched by a `"POST"` call with a body: exactly one, with
wire method POST, the built URL, and the body unchanged. -/
theorem make_request_post_requests (c : Webdock) (endpoint : String)
    (d : Json) (net : Request → Except ReqwestErr Response) :
    (c.make_request endpoint "POST" (some d) net).requests
      = [⟨Method.POST, c.base_url ++ "/" ++ endpoint, some d⟩] := by
  cases hnet : net ⟨Method.POST, c.base_url ++ "/" ++ endpoint, some d⟩ with
  | error e => simp [Webdock.make_request, hnet]
  | ok res =>
    rcases hs : c.send_response res true with ⟨fst, out⟩
    cases fst <;> simp [Webdock.make_request, hnet, hs]

/-- Claim C6: with all five required keys present, `provision_server`
dispatches exactly one request: a POST to the servers endpoint
(`https://api.webdock.io/v1/servers`) with the supplied body unchanged. -/
theorem provision_server_dispatches_one_post (api_token : String) (data : Json)
    (data_obj : List (String × Json)) (net : Request → Except ReqwestErr Response)
    (hobj : data.as_object = some data_obj)
    (hall : ∀ f ∈ requiredFields, Json.hasKey data_obj f = true) :
    ((Webdock.new api_token).provision_server data net).requests
      = [⟨Method.POST, "https://api.webdock.io/v1/servers", some data⟩] := by
  have hfind : requiredFields.find? (fun field => !(Json.hasKey data_obj field)) = none := by
    rw [List.find?_eq_none]
    intro f hf
    simp [hall f hf]
  simp only [Webdock.provision_server, hobj, hfind]
  show ((Webdock.new api_token).make_request "servers" "POST" (some data) net).requests = _
  rw [make_request_post_requests]
  rfl

/-- Witness for C6: a body with all five keys yields exactly one POST to
the servers URL with that body. -/
theorem provision_server_dispatches_one_post_witness :
    ((Webdock.new "t").provision_server
        (.obj [("name", .str "a"), ("slug", .str "b"), ("locationId", .str "c"),
               ("profileSlug", .str "d"), ("imageSlug", .str "e")])
        (fun _ => Except.error (.transport "unreachable"))).requests
      = [⟨Method.POST, "https://api.webdock.io/v1/servers",
          some (.obj [("name", .str "a"), ("slug", .str "b"), ("locationId", .str "c"),
                      ("profileSlug", .str "d"), ("imageSlug", .str "e")])⟩] :=
  provision_server_dispatches_one_post "t" _ _ _ rfl (by decide)

/-- Claim C8: a DELETE call whose response has a success status never
attempts JSON decoding: the outcome is `Ok` and the printed line is the
status line, for any response body whatsoever — including one on which
JSON decoding would fail. -/
theorem delete_no_body_decode (c : Webdock) (endpoint : String)
    (net : Request → Except ReqwestErr Response) (res : Response)
    (hnet : net ⟨Method.DELETE, c.base_url ++ "/" ++ endpoint, none⟩ = Except.ok res)
    (hs : res.status = 200 ∨ res.status = 201 ∨ res.status = 202 ∨ res.status = 418)
    (hraw : c.expects_raw = false) :
    (c.make_request endpoint "DELETE" none net).outcome = Outcome.ok ∧
    (c.make_request endpoint "DELETE" none net).output
      = [OutLine.responseStatus res.statusText] := by
  have hsend : c.send_response res false = (Except.ok (), [.responseStatus res.statusText]) := by
    unfold Webdock.send_response
    rw [if_pos hs, hraw]
    rfl
  have hcall : c.make_request endpoint "DELETE" none net
      = ⟨Outcome.ok, [⟨Method.DELETE, c.base_url ++ "/" ++ endpoint, none⟩],
         [OutLine.responseStatus res.statusText]⟩ := by
    simp [Webdock.make_request, hnet, hsend]
  rw [hcall]
  exact ⟨rfl, rfl⟩

/-- Witness for C8: a 200 response to DELETE whose body would fail JSON
decoding still yields `Ok` and prints only the status line. -/
theorem delete_no_body_decode_witness :
    ((Webdock.new "t").make_request "servers" "DELETE" none
        (fun _ => Except.ok ⟨200, "200 OK", .err (.decode "not valid json")⟩)).outcome
      = Outcome.ok ∧
    ((Webdock.new "t").make_request "servers" "DELETE" none
        (fun _ => Except.ok ⟨200, "200 OK", .err (.decode "not valid json")⟩)).output
      = [OutLine.responseStatus "200 OK"] :=
  delete_no_body_decode (Webdock.new "t") "servers" _
    ⟨200, "200 OK", .err (.decode "not valid json")⟩ rfl (Or.inl rfl) rfl

/-- Every request `make_request` hands to the transport — whatever the
verb, body and network behaviour — has URL `base_url ++ "/" ++ endpoint`. -/
theorem make_request_url (c : Webdock) (endpoint request_type : String)
    (data : Option Json) (net : Request → Except ReqwestErr Response) (r : Request)
    (hr : r ∈ (c.make_request endpoint request_type data net).requests) :
    r.url = c.base_url ++ "/" ++ endpoint := by
  by_cases h1 : request_type = "GET"
  · subst h1
    cases hnet : net ⟨Method.GET, c.base_url ++ "/" ++ endpoint, none⟩ with
    | error e =>
      simp [Webdock.make_request, hnet] at hr
      subst hr
      rfl
    | ok res =>
      rcases hs : c.send_response res true with ⟨fst, out⟩
      cases fst <;> (simp [Webdock.make_request, hnet, hs] at hr; subst hr; rfl)
  · by_cases h2 : request_type = "POST" ∨ request_type = "PATCH"
    · rcases h2 with h2 | h2 <;> subst h2 <;>
        (cases data with
        | none => simp [Webdock.make_request] at hr
        | some d =>
          cases hnet : net ⟨Method.POST, c.base_url ++ "/" ++ endpoint, some d⟩ with
          | error e =>
            simp [Webdock.make_request, hnet] at hr
            subst hr
            rfl
          | ok res =>
            rcases hs : c.send_response res true with ⟨fst, out⟩
            cases fst <;> (simp [Webdock.make_request, hnet, hs] at hr; subst hr; rfl))
    · by_cases h3 : request_type = "DELETE"
      · subst h3
        cases hnet : net ⟨Method.DELETE, c.base_url ++ "/" ++ endpoint, none⟩ with
        | error e =>
          simp [Webdock.make_request, hnet] at hr
          subst hr
          rfl
        | ok res =>
          rcases hs : c.send_response res false with ⟨fst, out⟩
          cases fst <;> (simp [Webdock.make_request, hnet, hs] at hr; subst hr; rfl)
      · simp [Webdock.make_request, h1, h2, h3] at hr

/-- Claim C7: the endpoint table of every client built by `Webdock::new`
maps exactly ping→ping, servers→servers, locations→locations,
profiles→profiles, images→images, pubkeys→account/publicKeys,
scripts→scripts, hooks→hooks, events→events; `base_url` is fixed to
`https://api.webdock.io/v1`; and for every table entry the dispatcher
builds the URL `base_url ++ "/" ++ table[name]` on every request it hands
to the transport. -/
theorem endpoint_table_and_url_construction (api_token : String) :
    (Webdock.new api_token).base_url = "https://api.webdock.io/v1" ∧
    (Webdock.new api_token).endpoints =
      [("ping", "ping"), ("servers", "servers"), ("locations", "locations"),
       ("profiles", "profiles"), ("images", "images"),
       ("pubkeys", "account/publicKeys"), ("scripts", "scripts"),
       ("hooks", "hooks"), ("events", "events")] ∧
    ∀ name seg, (Webdock.new api_token).endpoints.lookup name = some seg →
      ∀ (request_type : String) (data : Option Json)
        (net : Request → Except ReqwestErr Response) (r : Request),
        r ∈ ((Webdock.new api_token).make_request seg request_type data net).requests →
        r.url = "https://api.webdock.io/v1" ++ "/" ++ seg := by
  refine ⟨rfl, rfl, ?_⟩
  intro name seg hseg request_type data net r hr
  exact make_request_url _ _ _ _ _ _ hr

/-- Witness for C7: the GET request dispatched for the `ping` entry has
URL `https://api.webdock.io/v1/ping`. -/
theorem endpoint_table_and_url_construction_witness :
    (⟨Method.GET, "https://api.webdock.io/v1/ping", none⟩ : Request).url
      = "https://api.webdock.io/v1" ++ "/" ++ "ping" :=
  (endpoint_table_and_url_construction "t").2.2 "ping" "ping" rfl "GET" none
    (fun _ => Except.error (.transport "down"))
    ⟨Method.GET, "https://api.webdock.io/v1/ping", none⟩
    (List.mem_singleton.mpr rfl)
